import Mathlib

/-!
Verification development for the cr-genesys customer-support relay
(src/app of the repository).  The definitions below are a shallow
embedding of the Python source: the webhook endpoint
(src/app/routes/webhook.py, handle_webhook), the inbound router
(src/app/utils/chat/generate_chat_message.py, generate_chat_message and
its helpers), the session helpers
(src/app/utils/chat/initialize_genesys_session.py) and the data model
(src/app/models.py).  Databases are modelled as explicit record values,
commits as functional updates, and the non-deterministic collaborators
(the LLM decision oracle, the Genesys HTTP API, environment variables)
as explicit parameters.  Outbound HTTP sends and socket broadcasts are
recorded in an effect trace.
-/

namespace CrGenesys

/-- Python truthiness of an optional string: None and the empty string are
falsy, every other string is truthy. -/
def pyTruthy : Option String → Bool
  | none => false
  | some s => !s.isEmpty

/-- Python str.lower(), modelled character by character on the string
data (every address in this development is ASCII, where Char.toLower
agrees with str.lower). -/
def pyLower (s : String) : String := ⟨s.data.map Char.toLower⟩

/-- Helper for pySplitChar, working on the character list of the string. -/
def splitAllAux (c : Char) : List Char → List (List Char)
  | [] => [[]]
  | x :: xs =>
    let r := splitAllAux c xs
    if x = c then [] :: r
    else
      match r with
      | [] => [[x]]
      | h :: t => (x :: h) :: t

/-- Python s.split(c) for a one-character separator: splits on every
occurrence of c, keeping empty parts, and returns one part when c does
not occur. -/
def pySplitChar (c : Char) (s : String) : List String :=
  (splitAllAux c s.data).map (fun l => ⟨l⟩)

/-- Helper for pySplitOnce, working on the character list of the string. -/
def splitOnceAux (c : Char) : List Char → Option (List Char × List Char)
  | [] => none
  | x :: xs =>
    if x = c then some ([], xs)
    else
      match splitOnceAux c xs with
      | none => none
      | some (a, b) => some (x :: a, b)

/-- Python s.split(c, 1) when c occurs in s: the part before the first
occurrence of c and the whole remainder after it.  none when c does not
occur at all. -/
def pySplitOnce (c : Char) (s : String) : Option (String × String) :=
  (splitOnceAux c s.data).map (fun p => (⟨p.1⟩, ⟨p.2⟩))

/-! ## Data model (src/app/models.py)

Timestamps (created_at, updated_at) and the message_type column are
omitted: no claim below concerns transcript ordering, and message_type
is never assigned anywhere in the source, so it always keeps its
default.  Message ordering in the store is modelled by list position
(messages are appended at the end). -/

/-- models.py ChatStatus: the lifecycle states of a Chat. -/
inductive ChatStatus
  | OPEN
  | CLOSED
  deriving DecidableEq

/-- models.py User: only the fields the routing core reads. -/
structure User where
  id : String
  email : String
  deriving DecidableEq

/-- models.py Chat: conversation with the Genesys correlation fields. -/
structure Chat where
  id : String
  status : ChatStatus
  user_id : String
  genesys_open_message_session_id : Option String
  genesys_open_message_active : Bool
  deriving DecidableEq

/-- models.py Message: a transcript entry. -/
structure Message where
  content : String
  chat_id : String
  is_system : Bool
  is_markdown : Bool
  sent_to_genesys : Bool
  genesys_message_id : Option String
  deriving DecidableEq

/-- models.py Memory: a durable extracted fact attached to a chat. -/
structure Memory where
  chat_id : String
  content : String
  deriving DecidableEq

/-- The database state: the tables the routing core touches. -/
structure DB where
  users : List User
  chats : List Chat
  messages : List Message
  memories : List Memory
  deriving DecidableEq

/-- db.query(Chat).filter(Chat.id == chat_id).first() -/
def DB.findChat (db : DB) (chat_id : String) : Option Chat :=
  db.chats.find? (fun c => c.id = chat_id)

/-- Resolution of the chat.user relationship. -/
def DB.findUser (db : DB) (uid : String) : Option User :=
  db.users.find? (fun u => u.id = uid)

/-- db.add(message); db.commit(): append-only insert into the messages
table.  List order is insertion order. -/
def DB.addMessage (db : DB) (m : Message) : DB :=
  { db with messages := db.messages ++ [m] }

/-- Insert into the memories table. -/
def DB.addMemory (db : DB) (m : Memory) : DB :=
  { db with memories := db.memories ++ [m] }

/-- Commit of an in-place mutation of a chat row: replace the row with
the same id. -/
def DB.updateChat (db : DB) (c : Chat) : DB :=
  { db with chats := db.chats.map (fun c0 => if c0.id = c.id then c else c0) }

/-! ## Address tagging scheme -/

/-- The address-tagging encoder, as written inline at webhook.py 186-189,
generate_chat_message.py 615-618 and initialize_genesys_session.py 29-32:
if user_email is truthy and contains an @, split it on the first @ and
insert +chat_id at the end of the local part; otherwise no address is
produced. -/
def encodeAddress (user_email : Option String) (chat_id : String) : Option String :=
  match user_email with
  | none => none
  | some ue =>
    if (!ue.isEmpty) && ue.data.contains '@' then
      match pySplitOnce '@' ue with
      | some (local_part, domain) => some (local_part ++ "+" ++ chat_id ++ "@" ++ domain)
      | none => none
    else none

/-- The address decoder of webhook.py 99-106: recipient.split(at-sign)
must give exactly a local part and a domain (so exactly one @ in the
address), the local part must contain a +, and it is split on the first
+ into the base local part and the chat id.  The result is the base
email and the chat id; none models the ValueError paths. -/
def decodeRecipient (recipient : String) : Option (String × String) :=
  match pySplitChar '@' recipient with
  | [local_part, domain] =>
    if local_part.data.contains '+' then
      match pySplitOnce '+' local_part with
      | some (base_local, chat_id) => some (base_local ++ "@" ++ domain, chat_id)
      | none => none
    else none
  | _ => none

/-! ## Decision oracle adapter (generate_chat_message.py 53-65, 79-230)

The OpenAI call, the JSON parsing of its reply and the pydantic model
validation all sit inside one try/except; any failure of any of them
lands in the fallback branch.  OracleOutcome.ok d models a call whose
structured output parsed and validated to d; OracleOutcome.failure
models every other behaviour (transport error, non-JSON text, missing
or ill-typed fields). -/

/-- Outcome of one oracle call as seen after parsing and validation. -/
inductive OracleOutcome (α : Type)
  | ok (d : α)
  | failure
  deriving DecidableEq

/-- generate_chat_message.py 53-58 MessageRoutingDecision. -/
structure MessageRoutingDecision where
  should_respond_to_user : Bool
  should_send_to_genesys : Bool
  user_response : Option String
  genesys_message : Option String
  explanation : String
  deriving DecidableEq

/-- generate_chat_message.py 60-65 GenesysResponseDecision. -/
structure GenesysResponseDecision where
  should_respond_to_genesys : Bool
  should_ask_user : Bool
  genesys_response : Option String
  user_question : Option String
  explanation : String
  deriving DecidableEq

/-- The generic acknowledgment text of generate_chat_message.py 155,
used as the user_response of the routing fallback decision. -/
def fallbackUserResponse : String :=
  "I understand you\x27re looking for help. Let me assist you with that."

/-- generate_chat_message.py 79-157 decide_message_routing: return the
parsed decision, or on any failure the fallback decision of lines
152-157 (respond to the user with a generic acknowledgment, do not send
to Genesys).  The prompt construction of lines 87-131 only shapes the
oracle input and is configuration, not control flow. -/
def decide_message_routing (outcome : OracleOutcome MessageRoutingDecision) :
    MessageRoutingDecision :=
  match outcome with
  | .ok d => d
  | .failure =>
    { should_respond_to_user := true
      should_send_to_genesys := false
      user_response := some fallbackUserResponse
      genesys_message := none
      explanation := "Fallback decision due to routing error" }

/-- generate_chat_message.py 159-230 decide_genesys_response: return the
parsed decision, or on any failure the fallback decision of lines
225-230 (do not reply to Genesys, ask the user, quoting the agent
message verbatim inside the question). -/
def decide_genesys_response (outcome : OracleOutcome GenesysResponseDecision)
    (genesys_message : String) : GenesysResponseDecision :=
  match outcome with
  | .ok d => d
  | .failure =>
    { should_respond_to_genesys := false
      should_ask_user := true
      genesys_response := none
      user_question := some ("The agent says: " ++ genesys_message ++
        "\n\nHow would you like me to respond?")
      explanation := "Fallback decision due to response error" }

/-! ## Outbound sends and effects

purecloud_client.send_open_message has the signature
(from_address, to_address, message_content, deployment_id=None,
use_existing_conversation=False): from_address is a required positional
parameter with no default.  The call sites at webhook.py 193-196 and
generate_chat_message.py 628-631 invoke it with only to_address and
message_content as keyword arguments, so Python raises TypeError at the
call boundary, before the function body runs and before any HTTP
request is issued; both call sites sit inside try/except Exception
blocks that catch the TypeError.  Only
initialize_genesys_session.py 51-56 passes from_address, so it is the
single call site that can actually dispatch an outbound message.  A
SendCall records one actually dispatched outbound HTTP request. -/

/-- One outbound Open Messaging HTTP request actually issued. -/
structure SendCall where
  from_address : String
  to_address : String
  message_content : String
  deriving DecidableEq

/-- Side effects of one handler invocation: the outbound sends actually
dispatched and the number of socket broadcasts emitted. -/
structure Effects where
  sends : List SendCall
  broadcasts : Nat
  deriving DecidableEq

/-! ## Webhook endpoint (src/app/routes/webhook.py handle_webhook) -/

/-- The control-flow-relevant part of the Genesys webhook payload:
message.id, message.channel.to.id (the recipient address) and
message.text.  The channel.time field is assumed well formed (its
datetime.fromisoformat parse at line 130 is not modelled) and the
type/content fields only decorate the socket payload with quick-reply
buttons, so they are omitted. -/
structure WebhookMessage where
  id : String
  to_id : String
  text : String
  deriving DecidableEq

/-- FastAPI error responses raised by handle_webhook. -/
inductive HttpError
  | badRequest
  | notFound
  | forbidden
  | internalError
  deriving DecidableEq

/-- HTTP response of one handle_webhook invocation: on success the
echoed messageId of line 267, otherwise the raised HTTPException. -/
inductive WebhookResult
  | ok (messageId : String)
  | error (e : HttpError)
  deriving DecidableEq

/-- Result of one handle_webhook invocation: the HTTP response, the
database afterwards and the recorded effects. -/
structure WebhookOutput where
  result : WebhookResult
  db : DB
  effects : Effects
  deriving DecidableEq

/-- The Message persisted for the inbound Genesys event,
webhook.py 123-132. -/
def inboundGenesysMessage (msg : WebhookMessage) (chat_id : String) : Message :=
  { content := msg.text
    chat_id := chat_id
    is_system := true
    is_markdown := true
    sent_to_genesys := true
    genesys_message_id := some msg.id }

/-- The Message persisted when the oracle decision asks the user a
question, webhook.py 237-245. -/
def askUserMessage (question : String) (chat_id : String) : Message :=
  { content := question
    chat_id := chat_id
    is_system := true
    is_markdown := true
    sent_to_genesys := false
    genesys_message_id := none }

/-- webhook.py 61-273 handle_webhook, step by step.

Lines 99-109: decode the recipient address; ValueError becomes a 400.
Lines 112-114: look up the chat; missing chat is a 404.
Lines 116-120: compare the decoded base address with the chat owner
email, both lowercased; mismatch is a 403 before anything is persisted.
A chat row whose user relationship does not resolve would raise
AttributeError at line 117, caught by the generic handler of lines
271-273 as a 500, still before any write.
Lines 122-164: persist the inbound Message and broadcast it.
Line 177: decide_genesys_response on the oracle outcome.
Lines 182-230 (respond-to-Genesys branch): the send_open_message call at
line 193 omits the required from_address argument, so it raises
TypeError before any HTTP request; the except on line 229 catches it,
and the branch therefore never reaches the persist at lines 199-211 and
never dispatches a send.  When the owner email is not splittable the
branch only logs.  Either way the branch has no effect, which is why it
does not appear below.
Lines 233-265 (ask-user branch): persist the question Message and
broadcast it.
Line 267: return the success payload. -/
def handle_webhook (db : DB) (msg : WebhookMessage)
    (oracle : OracleOutcome GenesysResponseDecision) : WebhookOutput :=
  match decodeRecipient msg.to_id with
  | none => ⟨.error .badRequest, db, ⟨[], 0⟩⟩
  | some (base_email, chat_id) =>
    match db.findChat chat_id with
    | none => ⟨.error .notFound, db, ⟨[], 0⟩⟩
    | some chat =>
      match db.findUser chat.user_id with
      | none => ⟨.error .internalError, db, ⟨[], 0⟩⟩
      | some owner =>
        if pyLower base_email ≠ pyLower owner.email then
          ⟨.error .forbidden, db, ⟨[], 0⟩⟩
        else
          let db1 := db.addMessage (inboundGenesysMessage msg chat_id)
          let decision := decide_genesys_response oracle msg.text
          if decision.should_ask_user && pyTruthy decision.user_question then
            ⟨.ok msg.id,
             db1.addMessage (askUserMessage (decision.user_question.getD "") chat_id),
             ⟨[], 2⟩⟩
          else
            ⟨.ok msg.id, db1, ⟨[], 1⟩⟩

/-! ## Session helpers (generate_chat_message.py 234-298, 434-440 and
initialize_genesys_session.py) -/

/-- generate_chat_message.py 74-77 / 241-244 GenesysSessionResponse. -/
structure GenesysSessionResponse where
  success : Bool
  message : String
  session_id : Option String
  deriving DecidableEq

/-- generate_chat_message.py 434-440 ensure_genesys_session_id: when the
chat has no truthy session id, assign a fresh uuid and commit; otherwise
do nothing.  Returns the chat afterwards and whether a write (commit)
occurred.  freshId stands for the str(uuid.uuid4()) value. -/
def ensure_genesys_session_id (chat : Chat) (freshId : String) : Chat × Bool :=
  if pyTruthy chat.genesys_open_message_session_id then (chat, false)
  else ({ chat with genesys_open_message_session_id := some freshId }, true)

/-- generate_chat_message.py 246-270 check_genesys_session: a chat has an
active session when both the active flag and a truthy session id are
present. -/
def check_genesys_session (db : DB) (chat_id : String) : GenesysSessionResponse :=
  match db.findChat chat_id with
  | none =>
    { success := false, message := "Chat " ++ chat_id ++ " not found", session_id := none }
  | some chat =>
    if chat.genesys_open_message_active && pyTruthy chat.genesys_open_message_session_id then
      { success := true
        message := "Chat has an active Genesys session"
        session_id := chat.genesys_open_message_session_id }
    else
      { success := false
        message := "Chat does not have an active Genesys session"
        session_id := none }

/-- initialize_genesys_session.py 10-65: look up the chat, construct the
tagged to_address from user_email, give up without sending when no
deployment id is configured or no to_address could be built, otherwise
dispatch exactly one outbound send (this call site passes from_address,
so it really sends) and report whether the HTTP request succeeded.
deploymentId is the GENESYS_OPEN_MESSAGING_DEPLOYMENT_ID setting,
from_address the resolved GENESYS_FROM_ADDRESS environment value
(default noreply@example.com), httpOk the outcome of the HTTP request.
The function performs no database write. -/
def initialize_genesys_session (db : DB) (deploymentId : Option String)
    (from_address : String) (httpOk : Bool) (chat_id : String)
    (user_email : Option String) : Bool × List SendCall :=
  match db.findChat chat_id with
  | none => (false, [])
  | some chat =>
    let to_address := encodeAddress user_email chat_id
    if !pyTruthy deploymentId then (false, [])
    else
      match to_address with
      | none => (false, [])
      | some ta =>
        let initial := "Chat " ++ chat_id ++ " initiated by user " ++
          (match user_email with
           | some ue => if !ue.isEmpty then ue else chat.user_id
           | none => chat.user_id)
        (httpOk, [⟨from_address, ta, initial⟩])

/-- generate_chat_message.py 272-298 create_genesys_session: return the
existing mapping when check_genesys_session succeeds, otherwise run
initialize_genesys_session and re-read the chat; success requires both
the initialization to report true and the chat to hold a truthy session
id (initialize_genesys_session never writes one, so a fresh
initialization reports failure here even when the send succeeded). -/
def create_genesys_session (db : DB) (deploymentId : Option String)
    (from_address : String) (httpOk : Bool) (chat_id : String)
    (customer_id : Option String) : GenesysSessionResponse × List SendCall :=
  let chk := check_genesys_session db chat_id
  if chk.success then (chk, [])
  else
    let r := initialize_genesys_session db deploymentId from_address httpOk
      chat_id customer_id
    let ok := r.1
    let sends := r.2
    match db.findChat chat_id with
    | some chat =>
      if ok && pyTruthy chat.genesys_open_message_session_id then
        ({ success := true
           message := "Successfully created Genesys session"
           session_id := chat.genesys_open_message_session_id }, sends)
      else
        ({ success := false, message := "Failed to create Genesys session"
           session_id := none }, sends)
    | none =>
      ({ success := false, message := "Failed to create Genesys session"
         session_id := none }, sends)

/-! ## Inbound router (generate_chat_message.py 519-820) -/

/-- Exceptions that can escape generate_chat_message. -/
inductive PyException
  | valueError
  | runtimeError
  | attributeError
  deriving DecidableEq

/-- Return behaviour of generate_chat_message: a raised exception, or a
returned value (None on the closed-chat skip paths, otherwise the last
Message it created). -/
inductive GenResult
  | raised (e : PyException)
  | returned (m : Option Message)
  deriving DecidableEq

/-- Result of one generate_chat_message invocation. -/
structure GenOutput where
  db : DB
  result : GenResult
  sends : List SendCall
  broadcasts : Nat
  deriving DecidableEq

/-- Parsed json arguments of a tool call, generate_chat_message.py
743-746 and 761-767: the optional chat_id and customer_id keys.  A key
that json.loads produced as explicit null is treated as absent. -/
structure ToolArgs where
  chat_id : Option String
  customer_id : Option String
  deriving DecidableEq

/-- Behaviour of the secondary OpenAI completion call of
generate_chat_message.py 708-727: the call raises (openai.OpenAIError,
re-raised as RuntimeError at line 725), or returns a plain text message
(possibly with None content, line 784), or returns a first tool call
with a name and arguments (args = none models a json.loads or
validation failure inside the per-tool try blocks). -/
inductive RegenOutcome
  | apiError
  | text (content : Option String)
  | toolCall (name : String) (args : Option ToolArgs)
  deriving DecidableEq

/-- The environmental inputs of one generate_chat_message invocation:
every source of non-determinism, threaded explicitly.  isMarkdown
stands for utils.validators.is_markdown (a regex plus mistune check on
the text, pure, not translated here because no claim depends on its
value). -/
structure GenEnv where
  memoryOutcome : Option String
  memoryWriteOk : Bool
  routing : OracleOutcome MessageRoutingDecision
  regen : RegenOutcome
  deploymentId : Option String
  genesysFromAddress : String
  sendHttpOk : Bool
  freshSessionId : String
  isMarkdown : String → Bool

/-- The user Message persisted at generate_chat_message.py 534-543. -/
def userMessage (chat_id : String) (question : String) : Message :=
  { content := question
    chat_id := chat_id
    is_system := false
    is_markdown := false
    sent_to_genesys := false
    genesys_message_id := none }

/-- The assistant Message persisted at generate_chat_message.py 793-802. -/
def assistantReplyMessage (chat_id : String) (content : String) (md : Bool) : Message :=
  { content := content
    chat_id := chat_id
    is_system := true
    is_markdown := md
    sent_to_genesys := false
    genesys_message_id := none }

/-- generate_chat_message.py 735-785: turn the first tool call of the
secondary completion into the reply content, running the tool.  Unknown
tool names fall through to line 781-782, where
getattr(tool_call.function, "result", None) is always None on an OpenAI
response object, leaving the bracketed placeholder.  Returns the
content and the outbound sends the tool dispatched. -/
def handleToolCall (db : DB) (deploymentId : Option String) (from_address : String)
    (httpOk : Bool) (cur_chat_id : String) (user_email : Option String)
    (name : String) (args : Option ToolArgs) : String × List SendCall :=
  if name = "check_genesys_session" then
    match args with
    | none => ("[Failed to check Genesys session status]", [])
    | some a =>
      let cid := a.chat_id.getD cur_chat_id
      let r := check_genesys_session db cid
      (if r.success then
        "This chat is connected to a live agent support session. Your messages will be forwarded to the agent."
      else
        "This chat is not currently connected to a live agent. Would you like me to connect you with a live agent?", [])
  else if name = "create_genesys_session" then
    match args with
    | none => ("[Failed to create Genesys session]", [])
    | some a =>
      let cid := a.chat_id.getD cur_chat_id
      let cust :=
        match a.customer_id with
        | some c => some c
        | none => if pyTruthy user_email then user_email else none
      let r := create_genesys_session db deploymentId from_address httpOk cid cust
      (if r.1.success then
        "You\x27ve been connected with a live agent support session. Your messages will be forwarded to the agent who will respond shortly."
      else
        "I wasn\x27t able to connect you with a live agent at this time. Please try again later or let me help you with your question.", r.2)
  else
    ("[Tool executed: " ++ name ++ "]", [])

/-- generate_chat_message.py 519-820 generate_chat_message, step by step.

Lines 534-543: persist the user Message unconditionally (before any
status or existence check).
Lines 546-575: best-effort memory extraction in a separate session;
every failure is swallowed.
Lines 578-590: broadcast the user Message.
Lines 593-596: look up the chat; a missing chat raises ValueError (the
user Message stays persisted).
Line 604: routing decision with fallback (decide_message_routing).
Lines 609-671, forward branch (decision wants Genesys and has a truthy
genesys_message): ensure_genesys_session_id runs and commits; then a
to_address is built from user_email; when one exists, the
send_open_message call at line 628 omits its required from_address
parameter and raises TypeError before issuing any request, the except
at line 664 catches it and forces should_respond_to_user to true; the
Genesys-forward Message persist at lines 634-644 is therefore
unreachable, and no send is dispatched.  When no to_address exists the
branch only logs.
Lines 674-676: when no user response is wanted, return the user
Message.
Lines 682-684: a truthy oracle-supplied user_response becomes the
content directly.
Lines 687-785, otherwise: secondary OpenAI call (OpenAIError becomes
RuntimeError at 725); then the closed recheck of lines 729-733 (the
source compares the SQLAlchemy status enum against the string "CLOSED";
we model the comparison as the status test it names, and no theorem
below relies on this guard firing); then tool handling via
handleToolCall.
Lines 787-790: closed check before the reply persist, same modelling
note; reading chat.status when the line 730 re-query found nothing
would raise AttributeError (unreachable in a sequential run).
Lines 792-820: persist the assistant reply and broadcast it. -/
def generate_chat_message (db : DB) (env : GenEnv) (chat_id : String)
    (question : String) (user_email : Option String) : GenOutput :=
  let user_message := userMessage chat_id question
  let db1 := db.addMessage user_message
  let db2 :=
    match env.memoryOutcome with
    | some mc => if env.memoryWriteOk then db1.addMemory ⟨chat_id, mc⟩ else db1
    | none => db1
  match db2.findChat chat_id with
  | none => ⟨db2, .raised .valueError, [], 1⟩
  | some chat =>
    let routing := decide_message_routing env.routing
    let forward := routing.should_send_to_genesys && pyTruthy routing.genesys_message
    let chatAfter := if forward then (ensure_genesys_session_id chat env.freshSessionId).1 else chat
    let db3 := if forward then db2.updateChat chatAfter else db2
    let routing2 :=
      if forward && (encodeAddress user_email chat_id).isSome then
        { routing with should_respond_to_user := true }
      else routing
    if !routing2.should_respond_to_user then
      ⟨db3, .returned (some user_message), [], 1⟩
    else
      if pyTruthy routing2.user_response then
        let content := routing2.user_response.getD ""
        if chatAfter.status = ChatStatus.CLOSED then
          ⟨db3, .returned none, [], 1⟩
        else
          let reply := assistantReplyMessage chat_id content (env.isMarkdown content)
          ⟨db3.addMessage reply, .returned (some reply), [], 2⟩
      else
        match env.regen with
        | .apiError => ⟨db3, .raised .runtimeError, [], 1⟩
        | .text c =>
          match db3.findChat chat_id with
          | some chatNow =>
            if chatNow.status = ChatStatus.CLOSED then ⟨db3, .returned none, [], 1⟩
            else
              let content := c.getD ""
              let reply := assistantReplyMessage chat_id content (env.isMarkdown content)
              ⟨db3.addMessage reply, .returned (some reply), [], 2⟩
          | none => ⟨db3, .raised .attributeError, [], 1⟩
        | .toolCall name args =>
          match db3.findChat chat_id with
          | some chatNow =>
            if chatNow.status = ChatStatus.CLOSED then ⟨db3, .returned none, [], 1⟩
            else
              let r := handleToolCall db3 env.deploymentId
                env.genesysFromAddress env.sendHttpOk chat_id user_email name args
              let reply := assistantReplyMessage chat_id r.1 (env.isMarkdown r.1)
              ⟨db3.addMessage reply, .returned (some reply), r.2, 2⟩
          | none =>
            let r := handleToolCall db3 env.deploymentId
              env.genesysFromAddress env.sendHttpOk chat_id user_email name args
            ⟨db3, .raised .attributeError, r.2, 1⟩

/-- The message log b extends the log a: b is a followed by some
(possibly empty) run of later messages. -/
def extendsLog (a b : List Message) : Prop := ∃ r, b = a ++ r

/-! ## Concrete fixtures used by witnesses and counterexamples -/

/-- A registered user owning the example conversation. -/
def exUser : User := ⟨"u1", "user@ex.com"⟩

/-- An OPEN conversation of exUser without a Genesys session id. -/
def exChatOpen : Chat := ⟨"c1", .OPEN, "u1", none, true⟩

/-- A CLOSED conversation of exUser with an active Genesys mapping. -/
def exChatClosed : Chat := ⟨"c1", .CLOSED, "u1", some "sess-1", true⟩

/-- An OPEN conversation of exUser with no external-session mapping at
all: the active flag is unset and no session id is stored. -/
def exChatNoSession : Chat := ⟨"c1", .OPEN, "u1", none, false⟩

/-- Database holding exUser and exChatOpen, with an empty transcript. -/
def exDbOpen : DB := ⟨[exUser], [exChatOpen], [], []⟩

/-- Database holding exUser and exChatClosed, with an empty transcript. -/
def exDbClosed : DB := ⟨[exUser], [exChatClosed], [], []⟩

/-- Database holding exUser and exChatNoSession, with an empty
transcript. -/
def exDbNoSession : DB := ⟨[exUser], [exChatNoSession], [], []⟩

/-- An oracle decision that requests no action at all. -/
def exNoActionDecision : GenesysResponseDecision :=
  ⟨false, false, none, none, "no action"⟩

/-- A concrete environment for generate_chat_message: memory extraction
finds nothing, the routing oracle fails, the secondary completion
returns plain text, no deployment id is configured. -/
def exEnv : GenEnv :=
  { memoryOutcome := none
    memoryWriteOk := true
    routing := .failure
    regen := .text (some "ok")
    deploymentId := none
    genesysFromAddress := "noreply@example.com"
    sendHttpOk := true
    freshSessionId := "f1"
    isMarkdown := fun _ => false }

/-! ## Helper lemmas -/

/-- splitAllAux never returns the empty list of parts. -/
theorem splitAllAux_ne_nil (c : Char) (l : List Char) : splitAllAux c l ≠ [] := by
  induction l with
  | nil => simp [splitAllAux]
  | cons x xs ih =>
    rcases hr : splitAllAux c xs with _ | ⟨hd, tl⟩
    · exact absurd hr ih
    · by_cases h : x = c <;> simp [splitAllAux, h, hr]

/-- Number of parts returned by a Python single-character split is one
more than the number of occurrences of the separator. -/
theorem splitAllAux_length (c : Char) (l : List Char) :
    (splitAllAux c l).length = l.count c + 1 := by
  induction l with
  | nil => simp [splitAllAux]
  | cons x xs ih =>
    by_cases h : x = c
    · simp [splitAllAux, h, List.count_cons, ih]
    · rcases hr : splitAllAux c xs with _ | ⟨hd, tl⟩
      · exact absurd hr (splitAllAux_ne_nil c xs)
      · simp [splitAllAux, h, hr] at ih ⊢
        simpa [List.count_cons, h] using ih

/-- A recipient address whose @ count is not exactly one fails to
decode: the two-variable unpacking of the split at webhook.py 102
raises ValueError for any other number of parts. -/
theorem decodeRecipient_none_of_count_ne_one (r : String)
    (h : r.data.count '@' ≠ 1) : decodeRecipient r = none := by
  have hlen := splitAllAux_length '@' r.data
  rcases hsp : splitAllAux '@' r.data with _ | ⟨a, _ | ⟨b, _ | ⟨c, rest⟩⟩⟩
  · simp [decodeRecipient, pySplitChar, hsp]
  · simp [decodeRecipient, pySplitChar, hsp]
  · rw [hsp] at hlen
    simp at hlen
    exact absurd hlen.symm (fun hx => h hx.symm)
  · simp [decodeRecipient, pySplitChar, hsp]

@[simp]
theorem findChat_addMessage (db : DB) (m : Message) (cid : String) :
    (db.addMessage m).findChat cid = db.findChat cid := rfl

@[simp]
theorem findChat_addMemory (db : DB) (m : Memory) (cid : String) :
    (db.addMemory m).findChat cid = db.findChat cid := rfl

@[simp]
theorem messages_addMessage (db : DB) (m : Message) :
    (db.addMessage m).messages = db.messages ++ [m] := rfl

@[simp]
theorem messages_addMemory (db : DB) (m : Memory) :
    (db.addMemory m).messages = db.messages := rfl

@[simp]
theorem messages_updateChat (db : DB) (c : Chat) :
    (db.updateChat c).messages = db.messages := rfl

/-! ## Claims -/

/-- C3: encoding conversation id c1 into base address user@ex.com yields
exactly user+c1@ex.com, and decoding user+c1@ex.com recovers the base
address user@ex.com and the conversation id c1 exactly, with
encodeAddress and decodeRecipient as the source writes them. -/
theorem C3_address_round_trip :
    encodeAddress (some "user@ex.com") "c1" = some "user+c1@ex.com" ∧
    decodeRecipient "user+c1@ex.com" = some ("user@ex.com", "c1") := by
  decide

/-- C4: a webhook event whose recipient address does not contain exactly
one @ (none at all, or more than one) is rejected with the 400 client
error of webhook.py 107-109, the database is unchanged (no Message is
persisted) and no send or broadcast happens. -/
theorem C4_malformed_address_rejected (db : DB) (msg : WebhookMessage)
    (oracle : OracleOutcome GenesysResponseDecision)
    (h : msg.to_id.data.count '@' ≠ 1) :
    handle_webhook db msg oracle = ⟨.error .badRequest, db, ⟨[], 0⟩⟩ := by
  have hd := decodeRecipient_none_of_count_ne_one msg.to_id h
  simp [handle_webhook, hd]

/-- Witness for C4 at the two addresses named by the claim:
userexample.com has no @ and user@x@y has two, both are rejected with
the 400 error and leave the store untouched. -/
theorem C4_malformed_address_rejected_witness :
    (("userexample.com" : String).data.count '@' ≠ 1 ∧
      handle_webhook exDbOpen ⟨"m1", "userexample.com", "hello"⟩ .failure =
        ⟨.error .badRequest, exDbOpen, ⟨[], 0⟩⟩) ∧
    (("user@x@y" : String).data.count '@' ≠ 1 ∧
      handle_webhook exDbOpen ⟨"m1", "user@x@y", "hello"⟩ .failure =
        ⟨.error .badRequest, exDbOpen, ⟨[], 0⟩⟩) :=
  ⟨⟨by decide, C4_malformed_address_rejected exDbOpen ⟨"m1", "userexample.com", "hello"⟩
      .failure (by decide)⟩,
   ⟨by decide, C4_malformed_address_rejected exDbOpen ⟨"m1", "user@x@y", "hello"⟩
      .failure (by decide)⟩⟩

/-- On a decodable address whose base matches the owner email up to
lowercasing, handle_webhook passes the ownership gate, persists the
inbound Message and answers with the success payload. -/
theorem webhook_accepts (db : DB) (msg : WebhookMessage)
    (oracle : OracleOutcome GenesysResponseDecision) (base cid : String)
    (chat : Chat) (owner : User)
    (hd : decodeRecipient msg.to_id = some (base, cid))
    (hc : db.findChat cid = some chat)
    (hu : db.findUser chat.user_id = some owner)
    (heq : pyLower base = pyLower owner.email) :
    (handle_webhook db msg oracle).result = .ok msg.id ∧
    ∃ rest, (handle_webhook db msg oracle).db.messages =
      db.messages ++ inboundGenesysMessage msg cid :: rest := by
  have hcond : ¬(pyLower base ≠ pyLower owner.email) := fun hx => hx heq
  simp only [handle_webhook, hd, hc, hu]
  rw [if_neg hcond]
  split
  · exact ⟨rfl, ⟨[askUserMessage ((decide_genesys_response oracle msg.text).user_question.getD "") cid], by simp⟩⟩
  · exact ⟨rfl, ⟨[], by simp⟩⟩

/-- Every invocation of generate_chat_message persists the user Message
(lines 534-543 run before any status or existence check), whatever else
happens afterwards. -/
theorem generate_persists_user_message (db : DB) (env : GenEnv)
    (chat_id question : String) (user_email : Option String) :
    extendsLog (db.messages ++ [userMessage chat_id question])
      (generate_chat_message db env chat_id question user_email).db.messages := by
  unfold generate_chat_message
  dsimp only
  repeat' split
  all_goals simp [extendsLog, apply_ite DB.messages]

/-- C2 counterexample: the claim rejects every event whose decoded base
address is not equal to the owner registered address, but the source
compares the two lowercased (webhook.py 117-118).  The recipient
USER+c1@ex.com decodes to base USER@ex.com, which differs from the
registered address user@ex.com as a string, yet the event is accepted
and a Message is written. -/
theorem C2_ownership_counterexample :
    decodeRecipient "USER+c1@ex.com" = some ("USER@ex.com", "c1") ∧
    ("USER@ex.com" : String) ≠ exUser.email ∧
    exDbOpen.findChat "c1" = some exChatOpen ∧
    exDbOpen.findUser exChatOpen.user_id = some exUser ∧
    (handle_webhook exDbOpen ⟨"m1", "USER+c1@ex.com", "hi"⟩ (.ok exNoActionDecision)).result =
      .ok "m1" ∧
    (handle_webhook exDbOpen ⟨"m1", "USER+c1@ex.com", "hi"⟩ (.ok exNoActionDecision)).db.messages ≠
      exDbOpen.messages := by
  decide

/-- C2 amended: an external event whose decoded base address differs
from the resolved conversation owner registered address under lowercase
normalization is rejected with the 403 of webhook.py 120, the database
is unchanged (zero Messages written) and no send or broadcast happens
before or after the rejection. -/
theorem C2_ownership_mismatch_rejected (db : DB) (msg : WebhookMessage)
    (oracle : OracleOutcome GenesysResponseDecision) (base cid : String)
    (chat : Chat) (owner : User)
    (hd : decodeRecipient msg.to_id = some (base, cid))
    (hc : db.findChat cid = some chat)
    (hu : db.findUser chat.user_id = some owner)
    (hmm : pyLower base ≠ pyLower owner.email) :
    handle_webhook db msg oracle = ⟨.error .forbidden, db, ⟨[], 0⟩⟩ := by
  simp only [handle_webhook, hd, hc, hu]
  rw [if_pos hmm]

/-- Witness for the amended C2: an event for the conversation of
user@ex.com decoding to base other@ex.com is rejected with 403 and
leaves the store untouched. -/
theorem C2_ownership_mismatch_rejected_witness :
    decodeRecipient "other+c1@ex.com" = some ("other@ex.com", "c1") ∧
    handle_webhook exDbOpen ⟨"m1", "other+c1@ex.com", "hi"⟩ .failure =
      ⟨.error .forbidden, exDbOpen, ⟨[], 0⟩⟩ :=
  ⟨by decide,
   C2_ownership_mismatch_rejected exDbOpen ⟨"m1", "other+c1@ex.com", "hi"⟩ .failure
     "other@ex.com" "c1" exChatOpen exUser (by decide) (by decide) (by decide) (by decide)⟩

/-- C9: the ownership check is case-insensitive.  Whenever the decoded
base address equals the owner registered email under lowercase
normalization (webhook.py 117-118 lowercases both sides), the event is
accepted: the handler returns the success payload and persists the
inbound Message, so two addresses differing only in letter case are
treated as the same owner. -/
theorem C9_ownership_check_case_insensitive (db : DB) (msg : WebhookMessage)
    (oracle : OracleOutcome GenesysResponseDecision) (base cid : String)
    (chat : Chat) (owner : User)
    (hd : decodeRecipient msg.to_id = some (base, cid))
    (hc : db.findChat cid = some chat)
    (hu : db.findUser chat.user_id = some owner)
    (heq : pyLower base = pyLower owner.email) :
    (handle_webhook db msg oracle).result = .ok msg.id ∧
    ∃ rest, (handle_webhook db msg oracle).db.messages =
      db.messages ++ inboundGenesysMessage msg cid :: rest :=
  webhook_accepts db msg oracle base cid chat owner hd hc hu heq

/-- Witness for C9: base USER@ex.com differs from the registered
user@ex.com only in case and the event is accepted and persisted. -/
theorem C9_ownership_check_case_insensitive_witness :
    (("USER@ex.com" : String) ≠ exUser.email ∧
      pyLower "USER@ex.com" = pyLower exUser.email) ∧
    ((handle_webhook exDbOpen ⟨"m1", "USER+c1@ex.com", "hi"⟩ .failure).result = .ok "m1" ∧
      ∃ rest, (handle_webhook exDbOpen ⟨"m1", "USER+c1@ex.com", "hi"⟩ .failure).db.messages =
        exDbOpen.messages ++ inboundGenesysMessage ⟨"m1", "USER+c1@ex.com", "hi"⟩ "c1" :: rest) :=
  ⟨⟨by decide, by decide⟩,
   C9_ownership_check_case_insensitive exDbOpen ⟨"m1", "USER+c1@ex.com", "hi"⟩ .failure
     "USER@ex.com" "c1" exChatOpen exUser (by decide) (by decide) (by decide) (by decide)⟩

/-- C6 counterexample: the claim requires handle_webhook to fail with
NoActiveSession, before persisting anything, when the conversation has
no active external-session mapping, but the handler contains no session
check at all (webhook.py 111-135): an event for a conversation whose
active flag is unset and whose session id is absent is accepted and its
Message is persisted. -/
theorem C6_no_session_counterexample :
    (exChatNoSession.genesys_open_message_active &&
      pyTruthy exChatNoSession.genesys_open_message_session_id) = false ∧
    (check_genesys_session exDbNoSession "c1").success = false ∧
    handle_webhook exDbNoSession ⟨"m1", "user+c1@ex.com", "hi"⟩ (.ok exNoActionDecision) =
      ⟨.ok "m1",
       exDbNoSession.addMessage (inboundGenesysMessage ⟨"m1", "user+c1@ex.com", "hi"⟩ "c1"),
       ⟨[], 1⟩⟩ := by
  decide

/-- C6 amended: handle_webhook does not require an active
external-session mapping.  An event resolving to a conversation on
which the source's own activity test (check_genesys_session) fails is
still accepted and its Message persisted; no NoActiveSession failure
path exists in the handler. -/
theorem C6_no_session_check_amended (db : DB) (msg : WebhookMessage)
    (oracle : OracleOutcome GenesysResponseDecision) (base cid : String)
    (chat : Chat) (owner : User)
    (hd : decodeRecipient msg.to_id = some (base, cid))
    (hc : db.findChat cid = some chat)
    (hu : db.findUser chat.user_id = some owner)
    (heq : pyLower base = pyLower owner.email)
    (hnos : (chat.genesys_open_message_active &&
      pyTruthy chat.genesys_open_message_session_id) = false) :
    (check_genesys_session db cid).success = false ∧
    (handle_webhook db msg oracle).result = .ok msg.id ∧
    ∃ rest, (handle_webhook db msg oracle).db.messages =
      db.messages ++ inboundGenesysMessage msg cid :: rest := by
  refine ⟨?_, webhook_accepts db msg oracle base cid chat owner hd hc hu heq⟩
  simp [check_genesys_session, hc, hnos]

/-- Witness for the amended C6: the conversation of exDbNoSession has no
mapping, its event is accepted and the Message persisted. -/
theorem C6_no_session_check_amended_witness :
    (check_genesys_session exDbNoSession "c1").success = false ∧
    (handle_webhook exDbNoSession ⟨"m1", "user+c1@ex.com", "hi"⟩ .failure).result = .ok "m1" ∧
    ∃ rest, (handle_webhook exDbNoSession ⟨"m1", "user+c1@ex.com", "hi"⟩ .failure).db.messages =
      exDbNoSession.messages ++
        inboundGenesysMessage ⟨"m1", "user+c1@ex.com", "hi"⟩ "c1" :: rest :=
  C6_no_session_check_amended exDbNoSession ⟨"m1", "user+c1@ex.com", "hi"⟩ .failure
    "user@ex.com" "c1" exChatNoSession exUser
    (by decide) (by decide) (by decide) (by decide) (by decide)

/-- C1 counterexample: the claim says a CLOSED conversation gains no
Message from either handler and the store is unchanged, but
handle_webhook has no status check and persists the inbound Message,
and generate_chat_message persists the user Message before its first
status check, so on a CLOSED conversation both leave the store strictly
larger. -/
theorem C1_closed_conversation_counterexample :
    exChatClosed.status = ChatStatus.CLOSED ∧
    (handle_webhook exDbClosed ⟨"m1", "user+c1@ex.com", "hi"⟩
      (.ok exNoActionDecision)).db.messages ≠ exDbClosed.messages ∧
    (generate_chat_message exDbClosed exEnv "c1" "hi"
      (some "user@ex.com")).db.messages ≠ exDbClosed.messages := by
  decide

/-- C1 amended: a CLOSED conversation does not make either handler a
no-op on the message store.  handle_webhook performs no status check:
a valid event for a CLOSED conversation is accepted and its Message
persisted exactly as for an OPEN one.  generate_chat_message persists
the user Message before any status check, so the store always grows by
at least that Message; only the final assistant reply creation is
guarded by a closed check. -/
theorem C1_closed_conversation_amended (db db2 : DB) (msg : WebhookMessage)
    (oracle : OracleOutcome GenesysResponseDecision) (env : GenEnv)
    (base cid chat_id question : String) (chat : Chat) (owner : User)
    (user_email : Option String)
    (hd : decodeRecipient msg.to_id = some (base, cid))
    (hc : db.findChat cid = some chat)
    (hu : db.findUser chat.user_id = some owner)
    (heq : pyLower base = pyLower owner.email)
    (_hclosed : chat.status = ChatStatus.CLOSED) :
    ((handle_webhook db msg oracle).result = .ok msg.id ∧
      ∃ rest, (handle_webhook db msg oracle).db.messages =
        db.messages ++ inboundGenesysMessage msg cid :: rest) ∧
    extendsLog (db2.messages ++ [userMessage chat_id question])
      (generate_chat_message db2 env chat_id question user_email).db.messages :=
  ⟨webhook_accepts db msg oracle base cid chat owner hd hc hu heq,
   generate_persists_user_message db2 env chat_id question user_email⟩

/-- Witness for the amended C1 on the CLOSED fixture conversation. -/
theorem C1_closed_conversation_amended_witness :
    ((handle_webhook exDbClosed ⟨"m1", "user+c1@ex.com", "hi"⟩ .failure).result = .ok "m1" ∧
      ∃ rest, (handle_webhook exDbClosed ⟨"m1", "user+c1@ex.com", "hi"⟩ .failure).db.messages =
        exDbClosed.messages ++
          inboundGenesysMessage ⟨"m1", "user+c1@ex.com", "hi"⟩ "c1" :: rest) ∧
    extendsLog (exDbClosed.messages ++ [userMessage "c1" "hi"])
      (generate_chat_message exDbClosed exEnv "c1" "hi" (some "user@ex.com")).db.messages :=
  C1_closed_conversation_amended exDbClosed exDbClosed ⟨"m1", "user+c1@ex.com", "hi"⟩
    .failure exEnv "user@ex.com" "c1" "c1" "hi" exChatClosed exUser (some "user@ex.com")
    (by decide) (by decide) (by decide) (by decide) (by decide)

/-- C10: the fallback ExternalResponseDecision substituted on an oracle
failure of decide_genesys_response always has
should_respond_to_genesys = false and should_ask_user = true, its user
question contains the agent message verbatim, and an oracle failure
during handle_webhook dispatches no outbound send at all. -/
theorem C10_external_fallback_never_replies (m : String) (db : DB) (msg : WebhookMessage) :
    decide_genesys_response OracleOutcome.failure m =
      ⟨false, true, none,
        some ("The agent says: " ++ m ++ "\n\nHow would you like me to respond?"),
        "Fallback decision due to response error"⟩ ∧
    (∃ pre post, (decide_genesys_response OracleOutcome.failure m).user_question =
      some (pre ++ m ++ post)) ∧
    (handle_webhook db msg OracleOutcome.failure).effects.sends = [] := by
  refine ⟨rfl, ⟨"The agent says: ", "\n\nHow would you like me to respond?", rfl⟩, ?_⟩
  unfold handle_webhook
  repeat' split
  all_goals rfl

/-- C8: ensure_genesys_session_id is idempotent.  After a first call
with a nonempty fresh id, a second call returns the same chat with the
same session identifier and performs no write; when the chat had no
truthy session id the first call is the single write and stores the
fresh id; when a mapping already existed the first call writes nothing
and returns it unchanged. -/
theorem C8_ensure_session_idempotent (chat : Chat) (f1 f2 : String)
    (h1 : f1.isEmpty = false) :
    (ensure_genesys_session_id (ensure_genesys_session_id chat f1).1 f2).1 =
      (ensure_genesys_session_id chat f1).1 ∧
    (ensure_genesys_session_id (ensure_genesys_session_id chat f1).1 f2).1.genesys_open_message_session_id =
      (ensure_genesys_session_id chat f1).1.genesys_open_message_session_id ∧
    (ensure_genesys_session_id (ensure_genesys_session_id chat f1).1 f2).2 = false ∧
    (pyTruthy chat.genesys_open_message_session_id = false →
      (ensure_genesys_session_id chat f1).2 = true ∧
      (ensure_genesys_session_id chat f1).1.genesys_open_message_session_id = some f1) ∧
    (pyTruthy chat.genesys_open_message_session_id = true →
      (ensure_genesys_session_id chat f1).2 = false ∧
      (ensure_genesys_session_id chat f1).1 = chat) := by
  by_cases h : pyTruthy chat.genesys_open_message_session_id = true
  · simp [ensure_genesys_session_id, h]
  · simp only [Bool.not_eq_true] at h
    have h1c : ensure_genesys_session_id chat f1 =
        ({ chat with genesys_open_message_session_id := some f1 }, true) := by
      simp [ensure_genesys_session_id, h]
    have h2c : ensure_genesys_session_id
        { chat with genesys_open_message_session_id := some f1 } f2 =
        ({ chat with genesys_open_message_session_id := some f1 }, false) := by
      simp [ensure_genesys_session_id, pyTruthy, h1]
    rw [h1c]
    simp [h2c, h]

/-- Witness for C8 on a chat without a session id: the first call
writes sess-a, the second call changes nothing. -/
theorem C8_ensure_session_idempotent_witness :
    (ensure_genesys_session_id (ensure_genesys_session_id exChatOpen "sess-a").1 "sess-b").1 =
      (ensure_genesys_session_id exChatOpen "sess-a").1 ∧
    (ensure_genesys_session_id (ensure_genesys_session_id exChatOpen "sess-a").1 "sess-b").1.genesys_open_message_session_id =
      (ensure_genesys_session_id exChatOpen "sess-a").1.genesys_open_message_session_id ∧
    (ensure_genesys_session_id (ensure_genesys_session_id exChatOpen "sess-a").1 "sess-b").2 = false ∧
    (pyTruthy exChatOpen.genesys_open_message_session_id = false →
      (ensure_genesys_session_id exChatOpen "sess-a").2 = true ∧
      (ensure_genesys_session_id exChatOpen "sess-a").1.genesys_open_message_session_id = some "sess-a") ∧
    (pyTruthy exChatOpen.genesys_open_message_session_id = true →
      (ensure_genesys_session_id exChatOpen "sess-a").2 = false ∧
      (ensure_genesys_session_id exChatOpen "sess-a").1 = exChatOpen) :=
  C8_ensure_session_idempotent exChatOpen "sess-a" "sess-b" (by decide)

/-- The fallback acknowledgment is a nonempty, hence truthy, string. -/
theorem pyTruthy_fallbackUserResponse : pyTruthy (some fallbackUserResponse) = true := by
  decide

/-- C5: when the routing oracle returns malformed or unparseable output,
decide_message_routing substitutes the fallback decision (respond to
the user with the generic acknowledgment, do not forward externally)
instead of propagating an error, and generate_chat_message on an OPEN
conversation persists exactly the user Message and one system fallback
reply Message, dispatches no send, and returns the reply. -/
theorem C5_routing_oracle_fallback (db : DB) (env : GenEnv)
    (chat_id question : String) (user_email : Option String) (chat : Chat)
    (hfail : env.routing = OracleOutcome.failure)
    (hc : db.findChat chat_id = some chat)
    (hopen : chat.status = ChatStatus.OPEN) :
    decide_message_routing env.routing =
      { should_respond_to_user := true
        should_send_to_genesys := false
        user_response := some fallbackUserResponse
        genesys_message := none
        explanation := "Fallback decision due to routing error" } ∧
    (generate_chat_message db env chat_id question user_email).db.messages =
      db.messages ++ [userMessage chat_id question,
        assistantReplyMessage chat_id fallbackUserResponse
          (env.isMarkdown fallbackUserResponse)] ∧
    (generate_chat_message db env chat_id question user_email).result =
      .returned (some (assistantReplyMessage chat_id fallbackUserResponse
        (env.isMarkdown fallbackUserResponse))) ∧
    (generate_chat_message db env chat_id question user_email).sends = [] := by
  obtain ⟨mo, mw, ro, rg, dep, fa, ho, fs, im⟩ := env
  dsimp only at hfail ⊢
  subst hfail
  refine ⟨rfl, ?_⟩
  cases mo <;> cases mw <;>
    simp [generate_chat_message, decide_message_routing, hc, hopen,
      pyTruthy_fallbackUserResponse]

/-- Witness for C5 on the OPEN fixture conversation with the failing
oracle environment exEnv. -/
theorem C5_routing_oracle_fallback_witness :
    decide_message_routing exEnv.routing =
      { should_respond_to_user := true
        should_send_to_genesys := false
        user_response := some fallbackUserResponse
        genesys_message := none
        explanation := "Fallback decision due to routing error" } ∧
    (generate_chat_message exDbOpen exEnv "c1" "I need a refund" none).db.messages =
      exDbOpen.messages ++ [userMessage "c1" "I need a refund",
        assistantReplyMessage "c1" fallbackUserResponse
          (exEnv.isMarkdown fallbackUserResponse)] ∧
    (generate_chat_message exDbOpen exEnv "c1" "I need a refund" none).result =
      .returned (some (assistantReplyMessage "c1" fallbackUserResponse
        (exEnv.isMarkdown fallbackUserResponse))) ∧
    (generate_chat_message exDbOpen exEnv "c1" "I need a refund" none).sends = [] :=
  C5_routing_oracle_fallback exDbOpen exEnv "c1" "I need a refund" none exChatOpen
    rfl (by decide) (by decide)

/-- initialize_genesys_session dispatches at most one outbound send. -/
theorem initialize_sends_length_le_one (db : DB) (dep : Option String)
    (fa : String) (ho : Bool) (cid : String) (ue : Option String) :
    (initialize_genesys_session db dep fa ho cid ue).2.length ≤ 1 := by
  unfold initialize_genesys_session
  rcases hfc : db.findChat cid with _ | chat <;> simp only [hfc]
  · simp
  · rcases hta : encodeAddress ue cid with _ | ta <;>
      by_cases hdep : (!pyTruthy dep) = true <;>
      simp [hta, hdep]

/-- create_genesys_session dispatches at most one outbound send. -/
theorem create_sends_length_le_one (db : DB) (dep : Option String)
    (fa : String) (ho : Bool) (cid : String) (cust : Option String) :
    (create_genesys_session db dep fa ho cid cust).2.length ≤ 1 := by
  unfold create_genesys_session
  dsimp only
  repeat' split
  all_goals simp [initialize_sends_length_le_one]

/-- Tool handling in the secondary completion dispatches at most one
outbound send. -/
theorem handleToolCall_sends_length_le_one (db : DB) (dep : Option String)
    (fa : String) (ho : Bool) (cid : String) (ue : Option String)
    (name : String) (args : Option ToolArgs) :
    (handleToolCall db dep fa ho cid ue name args).2.length ≤ 1 := by
  unfold handleToolCall
  repeat' split
  all_goals simp [create_sends_length_le_one]

/-- C7: one invocation of generate_chat_message creates at most two new
Message records and dispatches at most one outbound send, whatever the
oracle, the environment and the database do.  (The only possible new
Messages are the user Message and one assistant reply: the
Genesys-forward persist of lines 634-644 is unreachable because the
send call at line 628 raises TypeError first, and the only reachable
send is the session-initialization send of the create tool.) -/
theorem C7_at_most_two_messages_one_send (db : DB) (env : GenEnv)
    (chat_id question : String) (user_email : Option String) :
    (generate_chat_message db env chat_id question user_email).db.messages.length ≤
      db.messages.length + 2 ∧
    (generate_chat_message db env chat_id question user_email).sends.length ≤ 1 := by
  unfold generate_chat_message
  dsimp only
  repeat' split
  all_goals constructor
  all_goals first
    | (simp [apply_ite DB.messages] <;> omega)
    | (apply handleToolCall_sends_length_le_one)
